import Mathlib

/-!
Verification of the hpb-repeat-analyzer repository.

The Python source under `src/modules/` is shallowly embedded below:
`data_processor.py` (loading, cleansing, identity resolution, new-customer
extraction) and `repeat_analyzer.py` (repeat-pattern building and the seven
analytic views).  Dataframes are embedded as lists of typed rows, dates as
day numbers (`Nat`), money and percentages as rationals, nullable values as
`Option`, and functions that raise as `Except String`.
-/

namespace HPB

/-- Completed-status sentinel: the string 済み used by `repeat_analyzer.py`
to recognise completed visits. -/
def doneStatus : String := "済み"

/-- One row of the combined, cleansed, identity-tagged visit table (the
output of `DataProcessor.load_and_combine_csv_files`): `cid` is the resolved
customer id (顧客ID column), `date` the parsed visit date (来店日) as a day
number, `status` the raw ステータス string, `firstFlag` the tri-state
first-visit flag after `_clean_boolean_flags`, `stylist` / `coupon` the
segmentation columns, `attrs` a payload standing for the remaining carried
columns (gender, menu, amount, age band), and `idx` the dataframe row
index. -/
structure Visit where
  cid : String
  date : Nat
  status : String
  firstFlag : Option Bool
  stylist : Option String
  coupon : Option String
  attrs : Nat
  idx : Nat
deriving DecidableEq, Repr

/-- Accumulator loop of `dedupFirst`: emit each element not seen before. -/
def dedupFirstGo {α : Type} [DecidableEq α] : List α → List α → List α
  | [], _ => []
  | x :: xs, seen =>
    if x ∈ seen then dedupFirstGo xs seen else x :: dedupFirstGo xs (x :: seen)

/-- Remove duplicates from a list keeping the first occurrence of each
element, preserving order (the behaviour of the pandas idioms used in the
source: `not in` accumulation, `groupby` keys, `value_counts` keys). -/
def dedupFirst {α : Type} [DecidableEq α] (l : List α) : List α :=
  dedupFirstGo l []

/-! ### data_processor.py: field normalisation and identity resolution -/

/-- Embedding of `normalize_phone` (data_processor.py lines 243-248): keep
only digit characters; an empty result (or a null input) is null.  (The
source strips with the regex class `[^\d]`; digits are modelled by
`Char.isDigit`.) -/
def normalize_phone (phone : Option String) : Option String :=
  match phone with
  | none => none
  | some s =>
    if String.mk (s.data.filter Char.isDigit) = "" then none
    else some (String.mk (s.data.filter Char.isDigit))

/-- Python truthiness of an optional string: `None` and the empty string
are falsy. -/
def truthyStr : Option String → Bool
  | none => false
  | some s => decide (s ≠ "")

/-- Embedding of `generate_customer_id` (data_processor.py lines 352-366):
fixed priority phone > name key > customer number > row-index fallback,
where each field is tested with Python truthiness. -/
def generate_customer_id (phone name customer_num : Option String)
    (rowName : Nat) : String :=
  if truthyStr phone then "PHONE_" ++ phone.getD ""
  else if truthyStr name then "NAME_" ++ name.getD ""
  else if truthyStr customer_num then "CUST_" ++ customer_num.getD ""
  else "UNKNOWN_" ++ toString rowName

/-! ### data_processor.py: _clean_data row retention -/

/-- One raw combined row as `_clean_data` sees it: `parsedDate` is the
result of `parse_date` on the 来店日 column (`none` when unparseable),
`status` the ステータス column, `payload` the remaining columns (which the
cleansing steps rewrite but never use to drop rows). -/
structure RawRow where
  parsedDate : Option Nat
  status : String
  payload : Nat
deriving DecidableEq, Repr

/-- Embedding of the row-retention behaviour of `_clean_data`
(data_processor.py lines 128-176): `_clean_visit_date` keeps exactly the
rows whose visit date parsed; the status filter that the spec describes is
commented out in the source (lines 150-155), so no status test occurs; the
remaining steps (`_clean_boolean_flags`, `_clean_customer_info`,
`_clean_phone_numbers`, `_clean_names`, stylist-name normalisation) only
rewrite fields and never remove rows. -/
def clean_data (rows : List RawRow) : List RawRow :=
  rows.filter (fun r => r.parsedDate.isSome)

/-! ### data_processor.py: _load_single_csv encoding candidates -/

/-- One step of the candidate-list accumulation in `_load_single_csv`
(data_processor.py lines 108-110): a candidate is appended when it is
truthy (non-null, non-empty) and not already present. -/
def encStep (acc : List String) (enc : Option String) : List String :=
  match enc with
  | none => acc
  | some e => if e = "" then acc else if e ∈ acc then acc else acc ++ [e]

/-- Embedding of the encoding candidate list built by `_load_single_csv`
(data_processor.py lines 96-110): the explicit default first (when truthy),
then, deduplicated in order and skipping nulls: utf-8-sig, the sniffed
encoding, cp932, shift_jis, utf-8. -/
def encodingsToTry (defaultEnc detected : Option String) : List String :=
  let base := encStep [] defaultEnc
  [some "utf-8-sig", detected, some "cp932", some "shift_jis",
    some "utf-8"].foldl encStep base

/-- The candidate list in the order claim C9 / spec §4.1 states it:
explicit-default (if configured), sniffed-encoding, cp932, shift_jis,
utf-8-sig, utf-8 — deduplicated with order preserved and nulls skipped.
Stated from the spec's words, for comparison with `encodingsToTry` (which
follows the source). -/
def claimedEncodingsToTry (defaultEnc detected : Option String) :
    List String :=
  dedupFirst ([defaultEnc, detected, some "cp932", some "shift_jis",
    some "utf-8-sig", some "utf-8"].filterMap id)

/-- The candidate list in the order the source actually uses, written as
the claim would have to read after correction: explicit-default (if
configured), then utf-8-sig, the sniffed encoding, cp932, shift_jis,
utf-8 — deduplicated keeping the first occurrence, nulls and empty
(falsy) strings skipped. -/
def amendedEncodingsToTry (defaultEnc detected : Option String) :
    List String :=
  dedupFirst (([defaultEnc, some "utf-8-sig", detected, some "cp932",
    some "shift_jis", some "utf-8"].filterMap id).filter
      (fun e => decide (e ≠ "")))

/-- Embedding of the trial loop of `_load_single_csv` (data_processor.py
lines 112-126): try each candidate in order, return the first successful
parse, `none` (file skipped) when all fail.  `tryDecode` abstracts
`pd.read_csv` at one fixed file: `some` when that encoding parses the
file, `none` when it raises. -/
def loadSingleCsv {α : Type} (tryDecode : String → Option α)
    (defaultEnc detected : Option String) : Option α :=
  (encodingsToTry defaultEnc detected).findSome? tryDecode

/-- Embedding of `load_and_combine_csv_files` up to the concat step
(data_processor.py lines 35-53): each file contributes its per-file load
outcome (`none` = unreadable or raised); empty frames are also skipped;
when nothing survives the run fails, otherwise the frames are
concatenated. -/
def loadAndCombine {β : Type} (loaded : List (Option (List β))) :
    Except String (List β) :=
  let dfs := (loaded.filterMap id).filter (fun df => !df.isEmpty)
  if dfs.isEmpty then
    Except.error "読み込み可能なCSVファイルがありません"
  else
    Except.ok dfs.flatten

/-! ### data_processor.py: get_new_customers -/

/-- Embedding of the per-customer global first visit
(data_processor.py line 446, `groupby('顧客ID')['来店日'].transform('min')`):
the minimum visit date over all rows of the table carrying that customer
id, `none` when the customer has no row. -/
def globalFirstVisitDate (table : List Visit) (c : String) : Option Nat :=
  ((table.filter (fun r => r.cid == c)).map (fun r => r.date)).foldr
    (fun d acc =>
      match acc with
      | none => some d
      | some m => some (min d m)) none

/-- The minimum visit date over the customer's completed (ステータス 済み)
rows only.  This is the quantity the spec's §4.4 words use; the source's
`get_new_customers` never consults the status column, so the two agree
only on tables whose rows are all completed. -/
def globalFirstDoneVisitDate (table : List Visit) (c : String) :
    Option Nat :=
  ((table.filter (fun r => r.cid == c && r.status == doneStatus)).map
    (fun r => r.date)).foldr
    (fun d acc =>
      match acc with
      | none => some d
      | some m => some (min d m)) none

/-- Condition B of `get_new_customers` (data_processor.py line 452): the
first-visit flag equals True or is null. -/
def flagTrueOrBlank (r : Visit) : Prop :=
  r.firstFlag = some true ∨ r.firstFlag = none

instance (r : Visit) : Decidable (flagTrueOrBlank r) := by
  unfold flagTrueOrBlank; infer_instance

/-- Conjunction of conditions A, B and C of `get_new_customers`
(data_processor.py lines 448-454): the row is its customer's global first
visit, its flag is True or blank, and its date lies in the requested
window (inclusive on both ends). -/
def isTrueNewVisit (table : List Visit) (startDt endDt : Nat) (r : Visit) :
    Prop :=
  globalFirstVisitDate table r.cid = some r.date ∧ flagTrueOrBlank r ∧
    startDt ≤ r.date ∧ r.date ≤ endDt

instance (table : List Visit) (s e : Nat) (r : Visit) :
    Decidable (isTrueNewVisit table s e r) := by
  unfold isTrueNewVisit; infer_instance

/-- Rows satisfying all three conditions (data_processor.py line 457). -/
def trueNewCustomerVisits (table : List Visit) (startDt endDt : Nat) :
    List Visit :=
  table.filter (fun r => decide (isTrueNewVisit table startDt endDt r))

/-- First row attaining the minimal date of a list (`idxmin` semantics:
on ties the earliest row in the frame wins). -/
def firstMinByDate (rows : List Visit) : Option Visit :=
  rows.foldl
    (fun acc r =>
      match acc with
      | none => some r
      | some m => if r.date < m.date then some r else acc) none

/-- Embedding of `get_new_customers` (data_processor.py lines 438-477):
filter to the qualifying visits, then keep one row per customer id, the
first row attaining the group's minimal date
(`loc[groupby('顧客ID')['来店日'].idxmin()]`).  The source emits the rows
ordered by sorted customer id; the claims are insensitive to row order and
the embedding keeps first-occurrence order instead. -/
def get_new_customers (table : List Visit) (startDt endDt : Nat) :
    List Visit :=
  let q := trueNewCustomerVisits table startDt endDt
  (dedupFirst (q.map (fun r => r.cid))).filterMap
    (fun c => firstMinByDate (q.filter (fun r => r.cid == c)))

/-! ### repeat_analyzer.py: _analyze_repeat_patterns -/

/-- One row of the repeat table built by `_analyze_repeat_patterns`:
customer id, first visit date (初回来店日), the ordered repeat dates
(リピート日付リスト), their count (リピート回数), the days to the first
repeat (初回リピート日数, null when there is none), and the carried
first-visit attributes. -/
structure RepeatRecord where
  cid : String
  firstDate : Nat
  repeatDates : List Nat
  repeatCount : Nat
  daysToFirstRepeat : Option Nat
  stylist : Option String
  coupon : Option String
  attrs : Nat
deriving DecidableEq, Repr

/-- The qualifying repeat visits of one new customer
(repeat_analyzer.py lines 221-225): rows of the full table with the same
customer id, visit date strictly after the first visit date, on or before
the analysis end date, and status 済み. -/
def repeatVisitDatesOf (all_data : List Visit) (c : Visit) (endDt : Nat) :
    List Nat :=
  (all_data.filter (fun v =>
    v.cid == c.cid && decide (c.date < v.date) && decide (v.date ≤ endDt) &&
      v.status == doneStatus)).map (fun v => v.date)

/-- Embedding of the per-customer aggregation of `_analyze_repeat_patterns`
(repeat_analyzer.py lines 206-292) for one new-customer row `c` (whose
来店日 is the first visit date): the qualifying visits are sorted by date
(line 238), the date list, its count and the days from the first visit to
the earliest repeat are recorded (lines 241-268; `first` of the
date-sorted group is the minimum, i.e. the head of the sorted list). -/
def buildRepeatRecord (all_data : List Visit) (endDt : Nat) (c : Visit) :
    RepeatRecord :=
  let ds := List.insertionSort (· ≤ ·) (repeatVisitDatesOf all_data c endDt)
  { cid := c.cid
    firstDate := c.date
    repeatDates := ds
    repeatCount := ds.length
    daysToFirstRepeat := ds.head?.map (fun d => d - c.date)
    stylist := c.stylist
    coupon := c.coupon
    attrs := c.attrs }

/-- Embedding of `_analyze_repeat_patterns` (repeat_analyzer.py lines
143-292): one RepeatRecord per new-customer row, in order.  The source
merges the grouped repeat aggregates back onto the new-customer frame with
a left join on 顧客ID and fills customers without repeats with
count 0 / empty list / null days; for new-customer frames with pairwise
distinct customer ids (which `get_new_customers` produces) that equals
this per-row computation, including the `repeat_visits_df.empty` short
cut (lines 227-235). -/
def analyzeRepeatPatterns (all_data nc : List Visit) (endDt : Nat) :
    List RepeatRecord :=
  nc.map (buildRepeatRecord all_data endDt)

/-! ### repeat_analyzer.py: the seven analytic views -/

/-- Rounding to one decimal place, as `round(x, 1)` in the source.  (Python
rounds float ties to even; no claim depends on tie behaviour, and away from
ties the two agree.) -/
def round1 (x : ℚ) : ℚ := ((round (10 * x) : ℤ) : ℚ) / 10

/-- Number of records with at least `k` repeats (the recurring
`len(repeat_df[repeat_df['リピート回数'] >= k])` pattern). -/
def stageCount (repeat_df : List RepeatRecord) (k : Nat) : Nat :=
  (repeat_df.filter (fun r => decide (k ≤ r.repeatCount))).length

/-- Caller-supplied target percentages (first/second/third repeat). -/
structure TargetRates where
  first : ℚ
  second : ℚ
  third : ℚ
deriving DecidableEq, Repr

/-- Defaults applied when `target_rates` is `None`
(repeat_analyzer.py lines 82-87). -/
def defaultTargetRates : TargetRates := ⟨35, 45, 60⟩

/-- Result of `_calculate_basic_stats` (repeat_analyzer.py lines 303-328);
rate fields hold the rounded stored values. -/
structure BasicStats where
  totalNewCustomers : Nat
  xPlusRepeaters : Nat
  xPlusRate : ℚ
  firstRepeaters : Nat
  firstRepeatRate : ℚ
  avgRepeatAll : ℚ
  avgRepeatRepeaters : ℚ
  minRepeatCount : Nat
deriving DecidableEq, Repr

/-- Embedding of `_calculate_basic_stats` (repeat_analyzer.py lines
303-328).  The repeaters-only mean is the NaN-guarded value: the source
computes `mean()` of the repeaters, which is NaN exactly when there are no
repeaters, and then stores 0 in that case. -/
def calculateBasicStats (repeat_df : List RepeatRecord)
    (min_repeat_count : Nat) : BasicStats :=
  let total := repeat_df.length
  let xPlus := stageCount repeat_df min_repeat_count
  let firstRep := stageCount repeat_df 1
  let reps := repeat_df.filter (fun r => decide (0 < r.repeatCount))
  { totalNewCustomers := total
    xPlusRepeaters := xPlus
    xPlusRate := round1 (if 0 < total then (xPlus : ℚ) / total * 100 else 0)
    firstRepeaters := firstRep
    firstRepeatRate :=
      round1 (if 0 < total then (firstRep : ℚ) / total * 100 else 0)
    avgRepeatAll :=
      round1 (((repeat_df.map (fun r => r.repeatCount)).sum : ℚ) / total)
    avgRepeatRepeaters :=
      if reps.length = 0 then 0
      else round1 (((reps.map (fun r => r.repeatCount)).sum : ℚ) / reps.length)
    minRepeatCount := min_repeat_count }

/-- Result of `_analyze_repeat_funnel` (repeat_analyzer.py lines 330-378). -/
structure FunnelView where
  stages : List (String × Nat)
  stageRates : List (String × ℚ)
  continuationRates : List (String × ℚ)
  repeatDistribution : List (Nat × Nat)
  cumulativePercentages : List (Nat × ℚ)
deriving DecidableEq, Repr

/-- Cumulative-percentage accumulator of the funnel view
(repeat_analyzer.py lines 366-370). -/
def cumulPercent (total : Nat) : List (Nat × Nat) → Nat → List (Nat × ℚ)
  | [], _ => []
  | (k, f) :: rest, acc =>
    (k, round1 (((acc + f : Nat) : ℚ) / total * 100)) ::
      cumulPercent total rest (acc + f)

/-- Embedding of `_analyze_repeat_funnel` (repeat_analyzer.py lines
330-378): five stage counts, zero-guarded continuation rates, per-stage
shares, the repeat-count histogram sorted by count ascending, and its
cumulative-percentage curve. -/
def analyzeRepeatFunnel (repeat_df : List RepeatRecord) : FunnelView :=
  let total := repeat_df.length
  let c1 := stageCount repeat_df 1
  let c2 := stageCount repeat_df 2
  let c3 := stageCount repeat_df 3
  let c4 := stageCount repeat_df 4
  let stages : List (String × Nat) :=
    [("新規来店", total), ("2回目来店", c1), ("3回目来店", c2),
      ("4回目来店", c3), ("5回目来店", c4)]
  let cont : List (String × ℚ) :=
    [("2回目来店", if 0 < total then round1 ((c1 : ℚ) / total * 100) else 0),
      ("3回目来店", if 0 < c1 then round1 ((c2 : ℚ) / c1 * 100) else 0),
      ("4回目来店", if 0 < c2 then round1 ((c3 : ℚ) / c2 * 100) else 0),
      ("5回目来店", if 0 < c3 then round1 ((c4 : ℚ) / c3 * 100) else 0)]
  let stageRates : List (String × ℚ) := stages.map (fun p =>
    (p.1, if 0 < total then round1 ((p.2 : ℚ) / total * 100) else 0))
  let ks :=
    List.insertionSort (· ≤ ·)
      (dedupFirst (repeat_df.map (fun r => r.repeatCount)))
  let dist : List (Nat × Nat) := ks.map (fun k =>
    (k, (repeat_df.filter (fun r => r.repeatCount == k)).length))
  { stages := stages
    stageRates := stageRates
    continuationRates := cont
    repeatDistribution := dist
    cumulativePercentages := cumulPercent total dist 0 }

/-- Per-group statistics row of the stylist view. -/
structure GroupStat where
  name : String
  totalCustomers : Nat
  xPlusRepeaters : Nat
  xPlusRate : ℚ
  firstRepeaters : Nat
  firstRepeatRate : ℚ
  avgRepeat : ℚ
deriving DecidableEq, Repr

/-- Descending order on the threshold-repeat rate, used to rank groups. -/
def gsGE (a b : GroupStat) : Prop := b.xPlusRate ≤ a.xPlusRate

instance : DecidableRel gsGE := fun a b =>
  inferInstanceAs (Decidable (b.xPlusRate ≤ a.xPlusRate))

/-- Top-stylist summary (name and rate, with the 該当なし sentinel). -/
structure TopInfo where
  name : String
  rate : ℚ
deriving DecidableEq, Repr

/-- Result of `_analyze_by_stylist` (repeat_analyzer.py lines 380-436). -/
structure StylistView where
  stylistStats : List GroupStat
  topStylist : TopInfo
  totalXPlusRepeaters : Nat
  minCustomersFilter : Nat
deriving DecidableEq, Repr

/-- The stylist bucket of a record: null and empty map to 不明
(repeat_analyzer.py line 389). -/
def stylistClean (r : RepeatRecord) : String :=
  match r.stylist with
  | none => "不明"
  | some s => if s = "" then "不明" else s

/-- Embedding of `_analyze_by_stylist` (repeat_analyzer.py lines 380-436):
group by cleaned stylist name, drop groups below the minimum size, compute
the rate metrics, rank descending by the threshold-repeat rate, and report
the top group (or the sentinel) plus the whole-set threshold-repeater
count.  The source iterates groups in sorted-key order before the (stable)
rate sort; the embedding iterates in first-occurrence order, which claims
do not distinguish. -/
def analyzeByStylist (repeat_df : List RepeatRecord)
    (min_customers min_repeat_count : Nat) : StylistView :=
  let stats :=
    (dedupFirst (repeat_df.map stylistClean)).filterMap (fun nm =>
      let g := repeat_df.filter (fun r => stylistClean r == nm)
      if g.length < min_customers then none
      else
        some
          { name := nm
            totalCustomers := g.length
            xPlusRepeaters := stageCount g min_repeat_count
            xPlusRate :=
              round1 (if 0 < g.length then
                ((stageCount g min_repeat_count : ℚ) / g.length) * 100 else 0)
            firstRepeaters := stageCount g 1
            firstRepeatRate :=
              round1 (if 0 < g.length then
                ((stageCount g 1 : ℚ) / g.length) * 100 else 0)
            avgRepeat :=
              round1 (((g.map (fun r => r.repeatCount)).sum : ℚ) /
                g.length) })
  let sorted := List.insertionSort gsGE stats
  { stylistStats := sorted
    topStylist :=
      match sorted with
      | [] => ⟨"該当なし", 0⟩
      | t :: _ => ⟨t.name, t.xPlusRate⟩
    totalXPlusRepeaters := stageCount repeat_df min_repeat_count
    minCustomersFilter := min_customers }

/-- Per-group statistics row of the coupon view. -/
structure CouponGroupStat where
  name : String
  totalCustomers : Nat
  xPlusRepeaters : Nat
  xPlusRate : ℚ
  firstRepeaters : Nat
  firstRepeatRate : ℚ
  avgRepeatRepeaters : ℚ
deriving DecidableEq, Repr

/-- Descending order on the threshold-repeat rate for coupon groups. -/
def cgGE (a b : CouponGroupStat) : Prop := b.xPlusRate ≤ a.xPlusRate

instance : DecidableRel cgGE := fun a b =>
  inferInstanceAs (Decidable (b.xPlusRate ≤ a.xPlusRate))

/-- Best-coupon summary with the 該当なし sentinel. -/
structure BestCouponInfo where
  name : String
  rate : ℚ
  avgRepeat : ℚ
deriving DecidableEq, Repr

/-- Result of `_analyze_by_coupon` (repeat_analyzer.py lines 438-493). -/
structure CouponView where
  couponStats : List CouponGroupStat
  bestCoupon : BestCouponInfo
  minCustomersFilter : Nat
deriving DecidableEq, Repr

/-- The coupon bucket of a record: null and empty map to なし
(repeat_analyzer.py line 447). -/
def couponClean (r : RepeatRecord) : String :=
  match r.coupon with
  | none => "なし"
  | some s => if s = "" then "なし" else s

/-- Embedding of `_analyze_by_coupon` (repeat_analyzer.py lines 438-493):
like the stylist view, grouped by first-visit coupon, plus the zero-guarded
repeaters-only mean per group. -/
def analyzeByCoupon (repeat_df : List RepeatRecord)
    (min_customers min_repeat_count : Nat) : CouponView :=
  let stats :=
    (dedupFirst (repeat_df.map couponClean)).filterMap (fun nm =>
      let g := repeat_df.filter (fun r => couponClean r == nm)
      if g.length < min_customers then none
      else
        let reps := g.filter (fun r => decide (0 < r.repeatCount))
        some
          { name := nm
            totalCustomers := g.length
            xPlusRepeaters := stageCount g min_repeat_count
            xPlusRate :=
              round1 (if 0 < g.length then
                ((stageCount g min_repeat_count : ℚ) / g.length) * 100 else 0)
            firstRepeaters := stageCount g 1
            firstRepeatRate :=
              round1 (if 0 < g.length then
                ((stageCount g 1 : ℚ) / g.length) * 100 else 0)
            avgRepeatRepeaters :=
              round1 (if 0 < reps.length then
                ((reps.map (fun r => r.repeatCount)).sum : ℚ) / reps.length
              else 0) })
  let sorted := List.insertionSort cgGE stats
  { couponStats := sorted
    bestCoupon :=
      match sorted with
      | [] => ⟨"該当なし", 0, 0⟩
      | t :: _ => ⟨t.name, t.xPlusRate, t.avgRepeatRepeaters⟩
    minCustomersFilter := min_customers }

/-- Raw (unrounded) first-repeat rate: customers with at least one repeat
over all customers, zero-guarded (repeat_analyzer.py line 501). -/
def actualFirstRepeatRate (repeat_df : List RepeatRecord) : ℚ :=
  if 0 < repeat_df.length then
    (stageCount repeat_df 1 : ℚ) / repeat_df.length * 100
  else 0

/-- Raw second-repeat continuation: third-visit over second-visit
customers, zero-guarded (repeat_analyzer.py lines 507-512). -/
def actualSecondRepeatRate (repeat_df : List RepeatRecord) : ℚ :=
  if 0 < stageCount repeat_df 1 then
    (stageCount repeat_df 2 : ℚ) / stageCount repeat_df 1 * 100
  else 0

/-- Raw third-repeat continuation: fourth-visit over third-visit
customers, zero-guarded (repeat_analyzer.py lines 508-515). -/
def actualThirdRepeatRate (repeat_df : List RepeatRecord) : ℚ :=
  if 0 < stageCount repeat_df 2 then
    (stageCount repeat_df 3 : ℚ) / stageCount repeat_df 2 * 100
  else 0

/-- Raw achievement of one stage: actual over target times 100 when the
target is positive, 0 otherwise (repeat_analyzer.py lines 518-521). -/
def achievementOf (actual target : ℚ) : ℚ :=
  if 0 < target then actual / target * 100 else 0

/-- Required-additional block of one stage (repeat_analyzer.py lines
527-550): the target head-count at the current base, the current count,
and the shortfall clamped at zero; the two derived numbers are stored
rounded to integers. -/
structure StageReq where
  targetCount : ℤ
  currentCount : Nat
  additionalNeeded : ℤ
deriving DecidableEq, Repr

/-- Build one required-additional block from base size, current count and
the stage's target percentage. -/
def mkStageReq (base current : Nat) (rate : ℚ) : StageReq :=
  let tc : ℚ := (base : ℚ) * (rate / 100)
  { targetCount := round tc
    currentCount := current
    additionalNeeded := round (max 0 (tc - current)) }

/-- Result of `_compare_with_targets` (repeat_analyzer.py lines 495-558);
the actual and achievement fields hold the rounded stored values. -/
structure TargetComparison where
  targetRates : TargetRates
  actualFirst : ℚ
  actualSecond : ℚ
  actualThird : ℚ
  achievementFirst : ℚ
  achievementSecond : ℚ
  achievementThird : ℚ
  overallAchievement : ℚ
  requiredFirst : StageReq
  requiredSecond : StageReq
  requiredThird : StageReq
deriving DecidableEq, Repr

/-- Embedding of `_compare_with_targets` (repeat_analyzer.py lines
495-558): the three stage actuals, their zero-guarded achievements against
the caller targets, the overall mean achievement (computed from the
unrounded achievements, then rounded) and the three required-additional
blocks. -/
def compareWithTargets (repeat_df : List RepeatRecord)
    (target_rates : TargetRates) : TargetComparison :=
  let total := repeat_df.length
  let secondV := stageCount repeat_df 1
  let thirdV := stageCount repeat_df 2
  let fourthV := stageCount repeat_df 3
  let a1 := actualFirstRepeatRate repeat_df
  let a2 := actualSecondRepeatRate repeat_df
  let a3 := actualThirdRepeatRate repeat_df
  let h1 := achievementOf a1 target_rates.first
  let h2 := achievementOf a2 target_rates.second
  let h3 := achievementOf a3 target_rates.third
  { targetRates := target_rates
    actualFirst := round1 a1
    actualSecond := round1 a2
    actualThird := round1 a3
    achievementFirst := round1 h1
    achievementSecond := round1 h2
    achievementThird := round1 h3
    overallAchievement := round1 ((h1 + h2 + h3) / 3)
    requiredFirst := mkStageReq total secondV target_rates.first
    requiredSecond := mkStageReq secondV thirdV target_rates.second
    requiredThird := mkStageReq thirdV fourthV target_rates.third }

/-- Embedding of `categorize_period` (repeat_analyzer.py lines 584-598):
null days fall into the 不明 band, otherwise the six fixed day bands. -/
def categorizePeriod (days : Option Nat) : String :=
  match days with
  | none => "不明"
  | some d =>
    if d ≤ 7 then "1週間以内"
    else if d ≤ 14 then "2週間以内"
    else if d ≤ 30 then "1ヶ月以内"
    else if d ≤ 60 then "2ヶ月以内"
    else if d ≤ 90 then "3ヶ月以内"
    else "3ヶ月以上"

/-- The fixed band order used to emit the distribution
(repeat_analyzer.py line 612). -/
def definedOrder : List String :=
  ["1週間以内", "2週間以内", "1ヶ月以内", "2ヶ月以内", "3ヶ月以内",
    "3ヶ月以上", "不明"]

/-- The six day-range bands in their defined order; the 不明 band closes
the full defined order. -/
def dayBands : List String :=
  ["1週間以内", "2週間以内", "1ヶ月以内", "2ヶ月以内", "3ヶ月以内",
    "3ヶ月以上"]

/-- One band of the time-to-repeat distribution: band label, count and
rounded percentage. -/
structure PeriodBand where
  band : String
  count : Nat
  percentage : ℚ
deriving DecidableEq, Repr

/-- Result of `_analyze_repeat_periods` (repeat_analyzer.py lines
560-621). -/
structure PeriodView where
  avgDays : ℚ
  medianDays : ℚ
  minDays : Nat
  maxDays : Nat
  periodDistribution : List PeriodBand
deriving DecidableEq, Repr

/-- One band's entry of the distribution (repeat_analyzer.py lines
601-613): the count of day values falling in the band and its rounded
share; absent bands (count 0) produce no entry. -/
def periodBandEntry (withDays : List Nat) (cat : String) :
    Option PeriodBand :=
  if (withDays.map (fun d => categorizePeriod (some d))).countP
      (fun c => c == cat) = 0 then none
  else
    some ⟨cat,
      (withDays.map (fun d => categorizePeriod (some d))).countP
        (fun c => c == cat),
      round1 ((((withDays.map (fun d => categorizePeriod (some d))).countP
        (fun c => c == cat) : Nat) : ℚ) / withDays.length * 100)⟩

/-- The banded distribution, emitted in the defined band order and
containing only bands that occur (repeat_analyzer.py lines 601-613). -/
def periodDistributionOf (withDays : List Nat) : List PeriodBand :=
  definedOrder.filterMap (periodBandEntry withDays)

/-- Embedding of `_analyze_repeat_periods` (repeat_analyzer.py lines
560-621): restrict to records with non-null days-to-first-repeat; when none
remain return the zero placeholder; otherwise mean / median / min / max of
the day values and the banded distribution. -/
def analyzeRepeatPeriods (repeat_df : List RepeatRecord) : PeriodView :=
  let withDays : List Nat := repeat_df.filterMap (fun r => r.daysToFirstRepeat)
  if withDays.isEmpty then
    { avgDays := 0, medianDays := 0, minDays := 0, maxDays := 0,
      periodDistribution := [] }
  else
    let n := withDays.length
    let sorted : List Nat := List.insertionSort (· ≤ ·) withDays
    let median : ℚ :=
      if n % 2 = 1 then ((sorted.getD (n / 2) 0 : Nat) : ℚ)
      else (((sorted.getD (n / 2 - 1) 0 : Nat) : ℚ) +
        ((sorted.getD (n / 2) 0 : Nat) : ℚ)) / 2
    { avgDays := round1 ((withDays.sum : ℚ) / n)
      medianDays := round1 median
      minDays := sorted.headD 0
      maxDays := sorted.getLastD 0
      periodDistribution := periodDistributionOf withDays }

/-- Calendar month key (year*12 + month) of a day number, via the standard
civil-from-days conversion; embeds `dt.to_period('M')`
(repeat_analyzer.py line 626). -/
def civilMonthKey (z : Nat) : Nat :=
  let zz := z + 719468
  let era := zz / 146097
  let doe := zz % 146097
  let yoe := (doe - doe / 1460 + doe / 36524 - doe / 146096) / 365
  let y := yoe + era * 400
  let doy := doe - (365 * yoe + yoe / 4 - yoe / 100)
  let mp := (5 * doy + 2) / 153
  let m := if mp < 10 then mp + 3 else mp - 9
  let y2 := if m ≤ 2 then y + 1 else y
  y2 * 12 + m

/-- Per-month row of the monthly trend view. -/
structure MonthStat where
  newCustomers : Nat
  repeaters : Nat
  repeatRate : ℚ
deriving DecidableEq, Repr

/-- Result of `_analyze_monthly_trends` (repeat_analyzer.py lines
623-652). -/
structure MonthlyView where
  monthlyNewCustomers : List (Nat × Nat)
  monthlyRepeatRates : List (Nat × MonthStat)
deriving DecidableEq, Repr

/-- Embedding of `_analyze_monthly_trends` (repeat_analyzer.py lines
623-652): new customers are counted per calendar month of first visit; the
repeat records (joined back to their customer's month, which for distinct
customer ids is the month of their own first-visit date) are grouped per
month with the zero-guarded at-least-one-repeat rate. -/
def analyzeMonthlyTrends (nc : List Visit) (repeat_df : List RepeatRecord) :
    MonthlyView :=
  let months :=
    List.insertionSort (· ≤ ·)
      (dedupFirst (nc.map (fun c => civilMonthKey c.date)))
  let rmonths :=
    List.insertionSort (· ≤ ·)
      (dedupFirst (repeat_df.map (fun r => civilMonthKey r.firstDate)))
  { monthlyNewCustomers := months.map (fun m =>
      (m, (nc.filter (fun c => civilMonthKey c.date == m)).length))
    monthlyRepeatRates := rmonths.map (fun m =>
      let g := repeat_df.filter (fun r => civilMonthKey r.firstDate == m)
      let reps := stageCount g 1
      (m, { newCustomers := g.length
            repeaters := reps
            repeatRate :=
              if 0 < g.length then round1 ((reps : ℚ) / g.length * 100)
              else 0 })) }

/-! ### repeat_analyzer.py: analyze_repeat_customers entry point -/

/-- Echoed parameters of an analysis run, with the optional error marker
(the `parameters` dict of the result). -/
structure Params where
  newCustomerStart : Nat
  newCustomerEnd : Nat
  repeatAnalysisEnd : Nat
  minRepeatCount : Nat
  minStylistCustomers : Nat
  minCouponCustomers : Nat
  targetRates : TargetRates
  error : Option String
deriving DecidableEq, Repr

/-- The analysis result bundling the seven views (each `none` in the
empty-cohort placeholder result, `some` otherwise) plus the echoed
parameters. -/
structure AnalysisResult where
  basicStats : Option BasicStats
  funnelAnalysis : Option FunnelView
  stylistAnalysis : Option StylistView
  couponAnalysis : Option CouponView
  targetComparison : Option TargetComparison
  periodAnalysis : Option PeriodView
  monthlyAnalysis : Option MonthlyView
  parameters : Params
deriving DecidableEq, Repr

/-- Embedding of `analyze_repeat_customers` (repeat_analyzer.py lines
20-141).  The required-column and dtype validations (lines 48-58) and the
date-string parse validation (lines 60-71) always pass in this typed
embedding (columns exist by construction and dates arrive as day numbers).
A window start after the window end raises (lines 73-75).  A window end
after the repeat cutoff is only logged: the raise at line 79 is commented
out in the source.  An empty cohort short-circuits to the placeholder
result with the error marker (lines 95-111); otherwise the seven views are
computed (lines 113-141). -/
def analyzeRepeatCustomers (df : List Visit)
    (new_customer_start new_customer_end repeat_analysis_end : Nat)
    (min_repeat_count min_stylist_customers min_coupon_customers : Nat)
    (target_rates? : Option TargetRates) : Except String AnalysisResult :=
  if new_customer_start > new_customer_end then
    Except.error
      "新規顧客抽出開始日は新規顧客抽出終了日より前の日付である必要があります。"
  else
    let target_rates := target_rates?.getD defaultTargetRates
    let new_customers := get_new_customers df new_customer_start
      new_customer_end
    if new_customers.length = 0 then
      Except.ok
        { basicStats := none, funnelAnalysis := none, stylistAnalysis := none,
          couponAnalysis := none, targetComparison := none,
          periodAnalysis := none, monthlyAnalysis := none,
          parameters :=
            { newCustomerStart := new_customer_start
              newCustomerEnd := new_customer_end
              repeatAnalysisEnd := repeat_analysis_end
              minRepeatCount := min_repeat_count
              minStylistCustomers := min_stylist_customers
              minCouponCustomers := min_coupon_customers
              targetRates := target_rates
              error := some "指定期間に新規顧客が見つかりません" } }
    else
      let repeat_data :=
        analyzeRepeatPatterns df new_customers repeat_analysis_end
      Except.ok
        { basicStats := some (calculateBasicStats repeat_data
            min_repeat_count)
          funnelAnalysis := some (analyzeRepeatFunnel repeat_data)
          stylistAnalysis := some (analyzeByStylist repeat_data
            min_stylist_customers min_repeat_count)
          couponAnalysis := some (analyzeByCoupon repeat_data
            min_coupon_customers min_repeat_count)
          targetComparison := some (compareWithTargets repeat_data
            target_rates)
          periodAnalysis := some (analyzeRepeatPeriods repeat_data)
          monthlyAnalysis := some (analyzeMonthlyTrends new_customers
            repeat_data)
          parameters :=
            { newCustomerStart := new_customer_start
              newCustomerEnd := new_customer_end
              repeatAnalysisEnd := repeat_analysis_end
              minRepeatCount := min_repeat_count
              minStylistCustomers := min_stylist_customers
              minCouponCustomers := min_coupon_customers
              targetRates := target_rates
              error := none } }

/-! ### Helper lemmas -/

theorem round1_zero : round1 0 = 0 := by
  norm_num [round1]

theorem round1_natCast (n : Nat) : round1 (n : ℚ) = (n : ℚ) := by
  rw [round1, show (10 : ℚ) * (n : ℚ) = ((10 * n : Nat) : ℚ) by push_cast; ring,
    round_natCast]
  push_cast
  field_simp

theorem normalize_phone_ne_empty (raw : Option String) (p : String)
    (h : normalize_phone raw = some p) : p ≠ "" := by
  match raw with
  | none => exact Option.noConfusion h
  | some s =>
    simp only [normalize_phone] at h
    split at h
    · exact Option.noConfusion h
    · next hne =>
      rw [Option.some_inj] at h
      intro hp
      exact hne (by rw [h, hp])

theorem generate_customer_id_phone (p : String) (hp : p ≠ "")
    (name num : Option String) (i : Nat) :
    generate_customer_id (some p) name num i = "PHONE_" ++ p := by
  simp [generate_customer_id, truthyStr, hp]

theorem generate_customer_id_name (n : String) (hn : n ≠ "")
    (num : Option String) (i : Nat) :
    generate_customer_id none (some n) num i = "NAME_" ++ n := by
  simp [generate_customer_id, truthyStr, hn]

theorem generate_customer_id_cust (c : String) (hc : c ≠ "") (i : Nat) :
    generate_customer_id none none (some c) i = "CUST_" ++ c := by
  simp [generate_customer_id, truthyStr, hc]

/-! ### Claim C3: identity resolution priority and determinism -/

/-- C3.  Identity resolution is a total, row-local function with fixed
priority phone > name-key > customer-number > unique row-based fallback: a
row with a non-null normalized phone (which is never the empty string)
gets id PHONE_<phone>; absent phone but present name-key gets NAME_<key>;
absent both but present cleaned customer number gets CUST_<num>; absent
all three gets the row-index based id.  Consequently any two rows with
equal non-null normalized phone resolve to the same id, whatever their
other fields, row indices, order or batching. -/
theorem c3_identity_resolution :
    (∀ (raw : Option String) (p : String),
      normalize_phone raw = some p → p ≠ "") ∧
    (∀ (p : String) (name num : Option String) (i : Nat), p ≠ "" →
      generate_customer_id (some p) name num i = "PHONE_" ++ p) ∧
    (∀ (n : String) (num : Option String) (i : Nat), n ≠ "" →
      generate_customer_id none (some n) num i = "NAME_" ++ n) ∧
    (∀ (c : String) (i : Nat), c ≠ "" →
      generate_customer_id none none (some c) i = "CUST_" ++ c) ∧
    (∀ i : Nat,
      generate_customer_id none none none i = "UNKNOWN_" ++ toString i) ∧
    (∀ (raw1 raw2 : Option String) (p : String) (n1 n2 c1 c2 : Option String)
      (i1 i2 : Nat),
      normalize_phone raw1 = some p → normalize_phone raw2 = some p →
      generate_customer_id (some p) n1 c1 i1 =
        generate_customer_id (some p) n2 c2 i2) := by
  refine ⟨normalize_phone_ne_empty,
    fun p name num i hp => generate_customer_id_phone p hp name num i,
    fun n num i hn => generate_customer_id_name n hn num i,
    fun c i hc => generate_customer_id_cust c hc i,
    fun i => rfl,
    fun raw1 raw2 p n1 n2 c1 c2 i1 i2 h1 h2 => ?_⟩
  have hp : p ≠ "" := normalize_phone_ne_empty raw1 p h1
  rw [generate_customer_id_phone p hp n1 c1 i1,
    generate_customer_id_phone p hp n2 c2 i2]

/-- Witness for C3 at a concrete row: the scenario-1 phone normalizes to
09012345678 and resolves to the PHONE_ id. -/
theorem c3_identity_resolution_witness :
    normalize_phone (some "090-1234-5678") = some "09012345678" ∧
    generate_customer_id (some "09012345678") (some "ヤマダハナコ") none 3 =
      "PHONE_09012345678" :=
  ⟨by decide, c3_identity_resolution.2.1 "09012345678" (some "ヤマダハナコ")
    none 3 (by decide)⟩

/-! ### Claim C5: the status filter of _clean_data -/

/-- C5 (code bug evidence).  A row with a valid visit date whose status is
キャンセル (not the completed sentinel) survives `_clean_data` unchanged:
the status filter described by the spec is commented out in the source
(data_processor.py lines 150-155), so non-completed rows are not removed
before identity resolution — contradicting both the spec and the
repository's own test (test_modules.py scenario 1 expects the cancelled
row to be dropped). -/
theorem c5_status_filter_missing :
    clean_data [⟨some 10, doneStatus, 0⟩, ⟨some 20, "キャンセル", 1⟩] =
      [⟨some 10, doneStatus, 0⟩, ⟨some 20, "キャンセル", 1⟩] ∧
    ∃ r ∈ clean_data [⟨some 10, doneStatus, 0⟩, ⟨some 20, "キャンセル", 1⟩],
      r.status ≠ doneStatus := by
  refine ⟨rfl, ⟨⟨some 20, "キャンセル", 1⟩, ?_, ?_⟩⟩ <;> decide

/-! ### Claim C9: encoding candidate order -/

theorem foldl_encStep_eq (L : List (Option String)) :
    ∀ acc seen : List String, (∀ e, e ∈ acc ↔ e ∈ seen) →
      L.foldl encStep acc =
        acc ++ dedupFirstGo
          ((L.filterMap id).filter (fun e => decide (e ≠ ""))) seen := by
  induction L with
  | nil => intro acc seen _; simp [dedupFirstGo]
  | cons x xs ih =>
    intro acc seen hiff
    match x with
    | none =>
      have h2 : ((none :: xs).filterMap id).filter
          (fun e : String => decide (e ≠ "")) =
          (xs.filterMap id).filter (fun e => decide (e ≠ "")) := by simp
      rw [List.foldl_cons, h2]
      exact ih acc seen hiff
    | some e =>
      by_cases he : e = ""
      · subst he
        have h1 : encStep acc (some "") = acc := by simp [encStep]
        have h2 : ((some "" :: xs).filterMap id).filter
            (fun a : String => decide (a ≠ "")) =
            (xs.filterMap id).filter (fun a => decide (a ≠ "")) := by simp
        rw [List.foldl_cons, h1, h2]
        exact ih acc seen hiff
      · have h2 : ((some e :: xs).filterMap id).filter
            (fun a : String => decide (a ≠ "")) =
            e :: (xs.filterMap id).filter (fun a => decide (a ≠ "")) := by
          simp [he]
        by_cases hm : e ∈ acc
        · have h1 : encStep acc (some e) = acc := by simp [encStep, he, hm]
          have hseen : e ∈ seen := (hiff e).1 hm
          rw [List.foldl_cons, h1, h2]
          have h3 : dedupFirstGo
              (e :: (xs.filterMap id).filter (fun a => decide (a ≠ "")))
              seen =
              dedupFirstGo ((xs.filterMap id).filter
                (fun a => decide (a ≠ ""))) seen := by
            simp [dedupFirstGo, hseen]
          rw [h3]
          exact ih acc seen hiff
        · have h1 : encStep acc (some e) = acc ++ [e] := by
            simp [encStep, he, hm]
          have hseen : e ∉ seen := fun hs => hm ((hiff e).2 hs)
          rw [List.foldl_cons, h1, h2]
          have h3 : dedupFirstGo
              (e :: (xs.filterMap id).filter (fun a => decide (a ≠ "")))
              seen =
              e :: dedupFirstGo ((xs.filterMap id).filter
                (fun a => decide (a ≠ ""))) (e :: seen) := by
            simp [dedupFirstGo, hseen]
          rw [h3]
          have hiff2 : ∀ a, a ∈ acc ++ [e] ↔ a ∈ e :: seen := by
            intro a
            simp only [List.mem_append, List.mem_singleton, List.mem_cons,
              hiff a]
            tauto
          rw [ih (acc ++ [e]) (e :: seen) hiff2]
          simp

/-- C9 (counterexample).  With no configured default and a sniffed
encoding euc-jp, the source tries utf-8-sig before the sniffed encoding,
not after shift_jis as the claim's candidate order states. -/
theorem c9_candidate_order_counterexample :
    encodingsToTry none (some "euc-jp") =
      ["utf-8-sig", "euc-jp", "cp932", "shift_jis", "utf-8"] ∧
    claimedEncodingsToTry none (some "euc-jp") =
      ["euc-jp", "cp932", "shift_jis", "utf-8-sig", "utf-8"] ∧
    encodingsToTry none (some "euc-jp") ≠
      claimedEncodingsToTry none (some "euc-jp") := by
  refine ⟨?_, ?_, ?_⟩ <;> decide

/-- C9 (amended).  For every single-file load, the loader tries the
candidates in exactly the order [explicit-default (if configured),
utf-8-sig, sniffed-encoding, cp932, shift_jis, utf-8], deduplicated with
order preserved and nulls (and empty strings) skipped; it returns the
table decoded by the first candidate that parses, skips the file (returns
none) when every candidate fails, and the multi-file load raises exactly
when no readable non-empty file remains. -/
theorem c9_encoding_order_amended (defaultEnc detected : Option String) :
    encodingsToTry defaultEnc detected =
      amendedEncodingsToTry defaultEnc detected ∧
    (∀ (α : Type) (f : String → Option α),
      loadSingleCsv f defaultEnc detected = none ↔
        ∀ e ∈ encodingsToTry defaultEnc detected, f e = none) ∧
    (∀ (α : Type) (f : String → Option α) (t : α),
      loadSingleCsv f defaultEnc detected = some t ↔
        ∃ l1 e l2, encodingsToTry defaultEnc detected = l1 ++ e :: l2 ∧
          f e = some t ∧ ∀ e' ∈ l1, f e' = none) ∧
    (∀ (β : Type) (loaded : List (Option (List β))),
      ((loaded.filterMap id).filter (fun df => !df.isEmpty) = [] →
        loadAndCombine loaded =
          Except.error "読み込み可能なCSVファイルがありません") ∧
      ((loaded.filterMap id).filter (fun df => !df.isEmpty) ≠ [] →
        loadAndCombine loaded = Except.ok
          ((loaded.filterMap id).filter (fun df => !df.isEmpty)).flatten)) := by
  refine ⟨?_, ?_, ?_, ?_⟩
  · have h := foldl_encStep_eq
      [defaultEnc, some "utf-8-sig", detected, some "cp932",
        some "shift_jis", some "utf-8"] [] [] (fun e => Iff.rfl)
    simpa [encodingsToTry, amendedEncodingsToTry, dedupFirst] using h
  · intro α f
    exact List.findSome?_eq_none_iff
  · intro α f t
    exact List.findSome?_eq_some_iff
  · intro β loaded
    constructor
    · intro h
      simp [loadAndCombine, h]
    · intro h
      simp only [loadAndCombine]
      rw [if_neg (by simpa using h)]

/-- Witness for C9 (amended) at concrete inputs: a loader that only
understands cp932 picks it after utf-8-sig and the sniffed euc-jp fail,
and a run whose only file is unreadable raises. -/
theorem c9_encoding_order_amended_witness :
    encodingsToTry (some "cp932") none =
      amendedEncodingsToTry (some "cp932") none ∧
    loadAndCombine ([none] : List (Option (List Nat))) =
      Except.error "読み込み可能なCSVファイルがありません" :=
  ⟨(c9_encoding_order_amended (some "cp932") none).1,
    ((c9_encoding_order_amended (some "cp932") none).2.2.2 Nat [none]).1
      (by decide)⟩

/-! ### Claim C8: division-by-zero policy of the analytic views -/

/-- C8.  Achievement rates are actual/target×100 (rounded) when the target
is positive and 0 when it is not; the repeaters-only mean of the basic
stats is 0 when there are no repeaters; and achievements can exceed 100
when actual exceeds target (here 60% actual against a 50% target gives
120).  No division ever raises: every view is a total function. -/
theorem c8_zero_division_policy :
    (∀ (repeat_df : List RepeatRecord) (t : TargetRates),
      ((compareWithTargets repeat_df t).achievementFirst =
        if 0 < t.first then
          round1 (actualFirstRepeatRate repeat_df / t.first * 100) else 0) ∧
      ((compareWithTargets repeat_df t).achievementSecond =
        if 0 < t.second then
          round1 (actualSecondRepeatRate repeat_df / t.second * 100) else 0) ∧
      ((compareWithTargets repeat_df t).achievementThird =
        if 0 < t.third then
          round1 (actualThirdRepeatRate repeat_df / t.third * 100) else 0)) ∧
    (∀ (repeat_df : List RepeatRecord) (t : TargetRates),
      t.first = 0 → (compareWithTargets repeat_df t).achievementFirst = 0) ∧
    (∀ (repeat_df : List RepeatRecord) (min_repeat : Nat),
      repeat_df.filter (fun r => decide (0 < r.repeatCount)) = [] →
      (calculateBasicStats repeat_df min_repeat).avgRepeatRepeaters = 0) ∧
    (compareWithTargets
      (List.replicate 3 ⟨"A", 0, [1], 1, some 1, none, none, 0⟩ ++
        List.replicate 2 ⟨"B", 0, [], 0, none, none, none, 0⟩)
      ⟨50, 45, 60⟩).achievementFirst = 120 := by
  refine ⟨fun repeat_df t => ⟨?_, ?_, ?_⟩, fun repeat_df t h => ?_,
    fun repeat_df m h => ?_, ?_⟩
  · show round1 (achievementOf (actualFirstRepeatRate repeat_df) t.first) = _
    rw [achievementOf]
    split <;> simp [round1_zero]
  · show round1 (achievementOf (actualSecondRepeatRate repeat_df) t.second)
      = _
    rw [achievementOf]
    split <;> simp [round1_zero]
  · show round1 (achievementOf (actualThirdRepeatRate repeat_df) t.third) = _
    rw [achievementOf]
    split <;> simp [round1_zero]
  · show round1 (achievementOf (actualFirstRepeatRate repeat_df) t.first) = 0
    rw [h, achievementOf]
    simp [round1_zero]
  · show (if (repeat_df.filter
        (fun r => decide (0 < r.repeatCount))).length = 0 then (0 : ℚ)
      else _) = 0
    rw [h]
    simp
  · have h60 : actualFirstRepeatRate
        (List.replicate 3 (⟨"A", 0, [1], 1, some 1, none, none, 0⟩ :
            RepeatRecord) ++
          List.replicate 2 ⟨"B", 0, [], 0, none, none, none, 0⟩) = 60 := by
      norm_num [actualFirstRepeatRate, stageCount, List.replicate]
    have h120 : achievementOf 60 (50 : ℚ) = ((120 : Nat) : ℚ) := by
      norm_num [achievementOf]
    simp only [compareWithTargets]
    rw [h60, h120, round1_natCast]
    norm_num

/-- Witness for C8 at concrete inputs: a zero target yields achievement 0
and an all-zero repeat table yields repeaters-only mean 0. -/
theorem c8_zero_division_policy_witness :
    (compareWithTargets [⟨"W", 0, [], 0, none, none, none, 0⟩]
      ⟨0, 45, 60⟩).achievementFirst = 0 ∧
    (calculateBasicStats [⟨"W", 0, [], 0, none, none, none, 0⟩]
      3).avgRepeatRepeaters = 0 :=
  ⟨c8_zero_division_policy.2.1 [⟨"W", 0, [], 0, none, none, none, 0⟩]
    ⟨0, 45, 60⟩ rfl,
    c8_zero_division_policy.2.2.1 [⟨"W", 0, [], 0, none, none, none, 0⟩]
      3 (by decide)⟩

/-! ### Claim C10: the unknown band never appears in the distribution -/

theorem categorizePeriod_some_ne_unknown (d : Nat) :
    categorizePeriod (some d) ≠ "不明" := by
  show (if d ≤ 7 then "1週間以内"
    else if d ≤ 14 then "2週間以内"
    else if d ≤ 30 then "1ヶ月以内"
    else if d ≤ 60 then "2ヶ月以内"
    else if d ≤ 90 then "3ヶ月以内"
    else "3ヶ月以上") ≠ "不明"
  split_ifs <;> decide

theorem periodBandEntry_unknown (withDays : List Nat) :
    periodBandEntry withDays "不明" = none := by
  have h : (withDays.map (fun d => categorizePeriod (some d))).countP
      (fun c => c == "不明") = 0 := by
    rw [List.countP_eq_zero]
    intro a ha
    rw [List.mem_map] at ha
    obtain ⟨d, _, rfl⟩ := ha
    simp only [beq_iff_eq]
    exact categorizePeriod_some_ne_unknown d
  simp [periodBandEntry, h]

theorem periodBandEntry_band (withDays : List Nat) (a : String)
    (b : PeriodBand) (h : periodBandEntry withDays a = some b) :
    b.band = a := by
  unfold periodBandEntry at h
  split at h
  · exact Option.noConfusion h
  · rw [Option.some_inj] at h
    rw [← h]

theorem filterMap_band_sublist (L : List String)
    (f : String → Option PeriodBand)
    (hf : ∀ a b, f a = some b → b.band = a) :
    ((L.filterMap f).map (fun b => b.band)).Sublist L := by
  induction L with
  | nil => simp
  | cons a L ih =>
    rw [List.filterMap_cons]
    cases hfa : f a with
    | none => exact List.Sublist.cons a ih
    | some b =>
      rw [List.map_cons, hf a b hfa]
      exact List.Sublist.cons₂ a ih

theorem periodDistributionOf_eq_dayBands (withDays : List Nat) :
    periodDistributionOf withDays =
      dayBands.filterMap (periodBandEntry withDays) := by
  have h : definedOrder = dayBands ++ ["不明"] := rfl
  rw [periodDistributionOf, h, List.filterMap_append]
  simp [periodBandEntry_unknown]

theorem analyzeRepeatPeriods_distribution (repeat_df : List RepeatRecord) :
    (analyzeRepeatPeriods repeat_df).periodDistribution =
      if (repeat_df.filterMap (fun r => r.daysToFirstRepeat)).isEmpty then
        []
      else
        periodDistributionOf
          (repeat_df.filterMap (fun r => r.daysToFirstRepeat)) := by
  simp only [analyzeRepeatPeriods]
  split <;> rfl

/-- C10.  In the time-to-repeat distribution view the 不明 (unknown) band
can never appear: rows with null days-to-first-repeat are removed before
bucketing, every banded value comes out of the six fixed day bands, and
the emitted bands form a subsequence of those six bands in their defined
order. -/
theorem c10_unknown_band_unreachable (repeat_df : List RepeatRecord) :
    (∀ b ∈ (analyzeRepeatPeriods repeat_df).periodDistribution,
      b.band ≠ "不明" ∧ b.band ∈ dayBands) ∧
    ((analyzeRepeatPeriods repeat_df).periodDistribution.map
      (fun b => b.band)).Sublist dayBands := by
  rw [analyzeRepeatPeriods_distribution]
  split
  · simp
  · rw [periodDistributionOf_eq_dayBands]
    set wd := repeat_df.filterMap (fun r => r.daysToFirstRepeat) with hwd
    constructor
    · intro b hb
      rw [List.mem_filterMap] at hb
      obtain ⟨a, haMem, hfa⟩ := hb
      have hband : b.band = a := periodBandEntry_band wd a b hfa
      have hNot : "不明" ∉ dayBands := by decide
      rw [hband]
      exact ⟨fun he => hNot (he ▸ haMem), haMem⟩
    · exact filterMap_band_sublist dayBands (periodBandEntry wd)
        (periodBandEntry_band wd)

/-- Witness for C10 at a concrete repeat table: with a five-day first
repeat on record, the emitted band labels form a subsequence of the six
day bands. -/
theorem c10_unknown_band_unreachable_witness :
    ((analyzeRepeatPeriods
      [⟨"A", 0, [5], 1, some 5, none, none, 0⟩]).periodDistribution.map
        (fun b => b.band)).Sublist dayBands :=
  (c10_unknown_band_unreachable
    [⟨"A", 0, [5], 1, some 5, none, none, 0⟩]).2

/-! ### Claim C4: zero new customers produce a placeholder result -/

/-- C4.  For every input table and every validated window in which zero
customers qualify as new, the engine entry point does not raise: it
returns the well-formed placeholder result whose seven view fields are
empty and whose echoed parameters carry the explanatory error marker, so
callers can distinguish a successful empty run from a crash. -/
theorem c4_empty_cohort_placeholder (df : List Visit)
    (s e cutoff mr ms mc : Nat) (t? : Option TargetRates)
    (hse : s ≤ e) (hempty : get_new_customers df s e = []) :
    analyzeRepeatCustomers df s e cutoff mr ms mc t? =
      Except.ok
        { basicStats := none, funnelAnalysis := none, stylistAnalysis := none,
          couponAnalysis := none, targetComparison := none,
          periodAnalysis := none, monthlyAnalysis := none,
          parameters :=
            { newCustomerStart := s, newCustomerEnd := e,
              repeatAnalysisEnd := cutoff, minRepeatCount := mr,
              minStylistCustomers := ms, minCouponCustomers := mc,
              targetRates := t?.getD defaultTargetRates,
              error := some "指定期間に新規顧客が見つかりません" } } := by
  have h1 : ¬ (s > e) := by omega
  simp [analyzeRepeatCustomers, hempty, h1]

/-- Witness for C4: an empty table over the window [0, 1] yields the
placeholder result with the error marker. -/
theorem c4_empty_cohort_placeholder_witness :
    analyzeRepeatCustomers [] 0 1 2 3 10 5 none =
      Except.ok
        { basicStats := none, funnelAnalysis := none, stylistAnalysis := none,
          couponAnalysis := none, targetComparison := none,
          periodAnalysis := none, monthlyAnalysis := none,
          parameters :=
            { newCustomerStart := 0, newCustomerEnd := 1,
              repeatAnalysisEnd := 2, minRepeatCount := 3,
              minStylistCustomers := 10, minCouponCustomers := 5,
              targetRates := (none : Option TargetRates).getD
                defaultTargetRates,
              error := some "指定期間に新規顧客が見つかりません" } } :=
  c4_empty_cohort_placeholder [] 0 1 2 3 10 5 none (by decide) rfl

/-! ### Claim C7: date-parameter validation -/

/-- C7 (counterexample).  With window end 10 after repeat cutoff 5 the
entry point does not raise: it returns a normal (here placeholder) result,
because the raise for end-after-cutoff is commented out in the source
(repeat_analyzer.py line 79) and the condition is only logged. -/
theorem c7_cutoff_validation_counterexample :
    (10 : Nat) > 5 ∧
    analyzeRepeatCustomers [] 1 10 5 3 10 5 none =
      Except.ok
        { basicStats := none, funnelAnalysis := none, stylistAnalysis := none,
          couponAnalysis := none, targetComparison := none,
          periodAnalysis := none, monthlyAnalysis := none,
          parameters :=
            { newCustomerStart := 1, newCustomerEnd := 10,
              repeatAnalysisEnd := 5, minRepeatCount := 3,
              minStylistCustomers := 10, minCouponCustomers := 5,
              targetRates := defaultTargetRates,
              error := some "指定期間に新規顧客が見つかりません" } } :=
  ⟨by decide, rfl⟩

/-- C7 (amended).  The entry point validates the date parameters before
any computation and raises exactly when the new-customer window start is
after the window end; a window end after the repeat cutoff is only
logged (the raise is commented out in the source) and the run proceeds
normally, never failing for that reason. -/
theorem c7_date_validation_amended (df : List Visit)
    (s e cutoff mr ms mc : Nat) (t? : Option TargetRates) :
    (s > e → analyzeRepeatCustomers df s e cutoff mr ms mc t? =
      Except.error
        "新規顧客抽出開始日は新規顧客抽出終了日より前の日付である必要があります。") ∧
    (s ≤ e → ∃ r, analyzeRepeatCustomers df s e cutoff mr ms mc t? =
      Except.ok r) := by
  constructor
  · intro h
    simp only [analyzeRepeatCustomers]
    rw [if_pos h]
  · intro h
    simp only [analyzeRepeatCustomers]
    rw [if_neg (by omega)]
    split
    · exact ⟨_, rfl⟩
    · exact ⟨_, rfl⟩

/-- Witness for C7 (amended): start 9 after end 2 raises the validation
error; start 2 before end 9 returns a result even though end 9 is after
cutoff 20 or not — here a normal run. -/
theorem c7_date_validation_amended_witness :
    analyzeRepeatCustomers [] 9 2 20 3 10 5 none =
      Except.error
        "新規顧客抽出開始日は新規顧客抽出終了日より前の日付である必要があります。" ∧
    ∃ r, analyzeRepeatCustomers [] 2 9 20 3 10 5 none = Except.ok r :=
  ⟨(c7_date_validation_amended [] 9 2 20 3 10 5 none).1 (by decide),
    (c7_date_validation_amended [] 2 9 20 3 10 5 none).2 (by decide)⟩

/-! ### Claims C2 and C6: the repeat-pattern builder -/

theorem mem_repeatVisitDatesOf_range {all_data : List Visit} {c : Visit}
    {endDt d : Nat} (h : d ∈ repeatVisitDatesOf all_data c endDt) :
    c.date < d ∧ d ≤ endDt := by
  simp only [repeatVisitDatesOf, List.mem_map] at h
  obtain ⟨v, hv, rfl⟩ := h
  rw [List.mem_filter] at hv
  have h2 := hv.2
  simp only [Bool.and_eq_true, beq_iff_eq, decide_eq_true_eq] at h2
  exact ⟨h2.1.1.2, h2.1.2⟩

theorem mem_filter_cid {all_data : List Visit} {c v : Visit} {endDt : Nat}
    (h : v ∈ all_data.filter (fun v =>
      v.cid == c.cid && decide (c.date < v.date) && decide (v.date ≤ endDt)
        && (v.status == doneStatus))) :
    v ∈ all_data ∧ v.cid = c.cid := by
  rw [List.mem_filter] at h
  have h2 := h.2
  simp only [Bool.and_eq_true, beq_iff_eq, decide_eq_true_eq] at h2
  exact ⟨h.1, h2.1.1.1⟩

/-- C2.  The repeat-pattern builder returns exactly one RepeatRecord per
new customer (the result length always equals the new-customer count, and
per customer id the record is unique — customers with zero qualifying
repeats are kept); each record's repeat dates are exactly the customer's
completed 済み visits with firstVisitDate < date ≤ cutoff, sorted
ascending, repeat_count is their count, and days_to_first_repeat is
(earliest repeat − firstVisitDate) in days, null when there are none. -/
theorem c2_repeat_pattern_builder (all_data nc : List Visit) (endDt : Nat)
    (hnc : ∀ c1 ∈ nc, ∀ c2 ∈ nc, c1.cid = c2.cid → c1 = c2) :
    (analyzeRepeatPatterns all_data nc endDt).length = nc.length ∧
    (∀ c ∈ nc, ∃! rr : RepeatRecord,
      rr ∈ analyzeRepeatPatterns all_data nc endDt ∧ rr.cid = c.cid) ∧
    (∀ c ∈ nc,
      buildRepeatRecord all_data endDt c ∈
        analyzeRepeatPatterns all_data nc endDt ∧
      (buildRepeatRecord all_data endDt c).cid = c.cid ∧
      (buildRepeatRecord all_data endDt c).firstDate = c.date ∧
      (buildRepeatRecord all_data endDt c).repeatDates.Perm
        (repeatVisitDatesOf all_data c endDt) ∧
      (buildRepeatRecord all_data endDt c).repeatDates.Sorted (· ≤ ·) ∧
      (buildRepeatRecord all_data endDt c).repeatCount =
        (buildRepeatRecord all_data endDt c).repeatDates.length ∧
      ((buildRepeatRecord all_data endDt c).repeatDates = [] →
        (buildRepeatRecord all_data endDt c).daysToFirstRepeat = none) ∧
      (∀ d l, (buildRepeatRecord all_data endDt c).repeatDates = d :: l →
        (buildRepeatRecord all_data endDt c).daysToFirstRepeat =
          some (d - c.date) ∧
        ∀ d' ∈ (buildRepeatRecord all_data endDt c).repeatDates, d ≤ d')) := by
  refine ⟨by simp [analyzeRepeatPatterns], ?_, ?_⟩
  · intro c hc
    refine ⟨buildRepeatRecord all_data endDt c,
      ⟨List.mem_map_of_mem _ hc, rfl⟩, ?_⟩
    rintro rr ⟨hmem, hcid⟩
    rw [analyzeRepeatPatterns, List.mem_map] at hmem
    obtain ⟨c', hc', rfl⟩ := hmem
    have hcc : c' = c := hnc c' hc' c hc hcid
    rw [hcc]
  · intro c hc
    have hdays : (buildRepeatRecord all_data endDt c).daysToFirstRepeat =
        (buildRepeatRecord all_data endDt c).repeatDates.head?.map
          (fun x => x - c.date) := rfl
    refine ⟨List.mem_map_of_mem _ hc, rfl, rfl,
      List.perm_insertionSort _ _, List.sorted_insertionSort _ _, rfl,
      ?_, ?_⟩
    · intro hnil
      rw [hdays, hnil]
      rfl
    · intro d l hdl
      have hsorted : (buildRepeatRecord all_data endDt c).repeatDates.Sorted
          (· ≤ ·) := List.sorted_insertionSort _ _
      constructor
      · rw [hdays, hdl]
        rfl
      · intro d' hd'
        rw [hdl] at hsorted hd'
        rcases List.mem_cons.mp hd' with h | h
        · omega
        · exact List.rel_of_sorted_cons hsorted d' h

/-- Witness for C2: a table with one customer and one qualifying repeat
yields exactly one RepeatRecord for the one new customer. -/
theorem c2_repeat_pattern_builder_witness :
    (analyzeRepeatPatterns
      [⟨"A", 1, "済み", some true, none, none, 0, 0⟩,
        ⟨"A", 15, "済み", some false, none, none, 0, 1⟩]
      [⟨"A", 1, "済み", some true, none, none, 0, 0⟩] 90).length = 1 :=
  (c2_repeat_pattern_builder
    [⟨"A", 1, "済み", some true, none, none, 0, 0⟩,
      ⟨"A", 15, "済み", some false, none, none, 0, 1⟩]
    [⟨"A", 1, "済み", some true, none, none, 0, 0⟩] 90 (by decide)).1

/-- C6 (counterexample).  A customer with two completed visits on the same
day 5 after a first visit on day 1 produces repeat_dates [5, 5]: the list
is not strictly increasing, refuting the claim as stated (length, range
and ascending order do hold). -/
theorem c6_strict_increase_counterexample :
    analyzeRepeatPatterns
      [⟨"A", 1, "済み", some true, none, none, 0, 0⟩,
        ⟨"A", 5, "済み", none, none, none, 0, 1⟩,
        ⟨"A", 5, "済み", none, none, none, 0, 2⟩]
      [⟨"A", 1, "済み", some true, none, none, 0, 0⟩] 90 =
      [⟨"A", 1, [5, 5], 2, some 4, none, none, 0⟩] ∧
    ¬ (⟨"A", 1, [5, 5], 2, some 4, none, none, 0⟩ :
      RepeatRecord).repeatDates.Sorted (· < ·) := by
  constructor
  · rfl
  · intro h
    have h5 := List.rel_of_sorted_cons h 5 (by simp)
    omega

/-- C6 (amended).  For every RepeatRecord produced by the repeat-pattern
builder, len(repeat_dates) = repeat_count, every date in repeat_dates lies
in the half-open interval (firstVisitDate, cutoffDate], and repeat_dates
is sorted non-decreasingly; it is strictly increasing whenever the table
has at most one visit row per customer and date (so the claim's strict
form holds for tables without duplicate same-day visit rows). -/
theorem c6_repeat_record_invariants (all_data nc : List Visit)
    (endDt : Nat) :
    ∀ rr ∈ analyzeRepeatPatterns all_data nc endDt,
      rr.repeatDates.length = rr.repeatCount ∧
      (∀ d ∈ rr.repeatDates, rr.firstDate < d ∧ d ≤ endDt) ∧
      rr.repeatDates.Sorted (· ≤ ·) ∧
      ((∀ v1 ∈ all_data, ∀ v2 ∈ all_data, v1.cid = v2.cid →
          v1.date = v2.date → v1 = v2) → all_data.Nodup →
        rr.repeatDates.Sorted (· < ·)) := by
  intro rr hmem
  rw [analyzeRepeatPatterns, List.mem_map] at hmem
  obtain ⟨c, hc, rfl⟩ := hmem
  refine ⟨rfl, ?_, List.sorted_insertionSort _ _, ?_⟩
  · intro d hd
    have hd2 : d ∈ repeatVisitDatesOf all_data c endDt :=
      (List.perm_insertionSort _ _).mem_iff.mp hd
    exact mem_repeatVisitDatesOf_range hd2
  · intro huniq hnd
    have hrows : (all_data.filter (fun v =>
        v.cid == c.cid && decide (c.date < v.date) &&
          decide (v.date ≤ endDt) && (v.status == doneStatus))).Nodup :=
      hnd.filter _
    have hdates : ((all_data.filter (fun v =>
        v.cid == c.cid && decide (c.date < v.date) &&
          decide (v.date ≤ endDt) && (v.status == doneStatus))).map
        (fun v => v.date)).Nodup := by
      refine hrows.map_on ?_
      intro x hx y hy hxy
      have hx2 := mem_filter_cid hx
      have hy2 := mem_filter_cid hy
      exact huniq x hx2.1 y hy2.1 (hx2.2.trans hy2.2.symm) hxy
    have hsortnd : (buildRepeatRecord all_data endDt c).repeatDates.Nodup :=
      (List.perm_insertionSort _ _).nodup_iff.mpr hdates
    have hsorted : (buildRepeatRecord all_data endDt c).repeatDates.Sorted
        (· ≤ ·) := List.sorted_insertionSort _ _
    exact (hsorted.and hsortnd).imp
      (fun hab => lt_of_le_of_ne hab.1 hab.2)

/-- Witness for C6 (amended) at a concrete table: the single record's
length equals its repeat count, and with distinct visit rows the dates are
strictly increasing. -/
theorem c6_repeat_record_invariants_witness :
    ((⟨"A", 1, [15], 1, some 14, none, none, 0⟩ :
      RepeatRecord).repeatDates.length =
      (⟨"A", 1, [15], 1, some 14, none, none, 0⟩ :
        RepeatRecord).repeatCount) ∧
    (⟨"A", 1, [15], 1, some 14, none, none, 0⟩ :
      RepeatRecord).repeatDates.Sorted (· < ·) :=
  ⟨(c6_repeat_record_invariants
      [⟨"A", 1, "済み", some true, none, none, 0, 0⟩,
        ⟨"A", 15, "済み", some false, none, none, 0, 1⟩]
      [⟨"A", 1, "済み", some true, none, none, 0, 0⟩] 90
      ⟨"A", 1, [15], 1, some 14, none, none, 0⟩ (by decide)).1,
    (c6_repeat_record_invariants
      [⟨"A", 1, "済み", some true, none, none, 0, 0⟩,
        ⟨"A", 15, "済み", some false, none, none, 0, 1⟩]
      [⟨"A", 1, "済み", some true, none, none, 0, 0⟩] 90
      ⟨"A", 1, [15], 1, some 14, none, none, 0⟩ (by decide)).2.2.2
      (by decide) (by decide)⟩

/-! ### Claim C1: the new-customer extraction -/

theorem foldrMin_eq_none (l : List Nat) :
    (l.foldr (fun d acc =>
      match acc with
      | none => some d
      | some m => some (min d m)) none) = none ↔ l = [] := by
  cases l with
  | nil => simp
  | cons x xs =>
    simp only [List.foldr_cons]
    cases h : xs.foldr (fun d acc =>
      match acc with
      | none => some d
      | some m => some (min d m)) none with
    | none => simp
    | some m => simp

theorem foldrMin_eq_some (l : List Nat) :
    ∀ d : Nat, (l.foldr (fun d acc =>
      match acc with
      | none => some d
      | some m => some (min d m)) none) = some d ↔
      (d ∈ l ∧ ∀ x ∈ l, d ≤ x) := by
  induction l with
  | nil => simp
  | cons x xs ih =>
    intro d
    simp only [List.foldr_cons]
    cases h : xs.foldr (fun d acc =>
      match acc with
      | none => some d
      | some m => some (min d m)) none with
    | none =>
      have hxs : xs = [] := (foldrMin_eq_none xs).mp h
      subst hxs
      constructor
      · intro h2
        rw [Option.some_inj] at h2
        subst h2
        exact ⟨List.mem_singleton.mpr rfl, by simp⟩
      · rintro ⟨hmem, hub⟩
        rw [List.mem_singleton] at hmem
        subst hmem
        rfl
    | some m =>
      have hm := (ih m).mp h
      constructor
      · intro h2
        rw [Option.some_inj] at h2
        subst h2
        constructor
        · rcases le_total x m with hxm | hmx
          · rw [min_eq_left hxm]
            exact List.mem_cons_self x xs
          · rw [min_eq_right hmx]
            exact List.mem_cons_of_mem x hm.1
        · intro y hy
          rcases List.mem_cons.mp hy with rfl | hy2
          · exact min_le_left _ _
          · exact le_trans (min_le_right _ _) (hm.2 y hy2)
      · rintro ⟨hmem, hub⟩
        rw [Option.some_inj]
        have h1 : d ≤ x := hub x (List.mem_cons_self x xs)
        have h2 : d ≤ m := hub m (List.mem_cons_of_mem x hm.1)
        have h3 : min x m ≤ d := by
          rcases List.mem_cons.mp hmem with rfl | hd2
          · exact min_le_left _ _
          · exact le_trans (min_le_right _ _) (hm.2 d hd2)
        omega

theorem globalFirstVisitDate_eq_some (table : List Visit) (c : String)
    (d : Nat) :
    globalFirstVisitDate table c = some d ↔
      ((∃ r ∈ table, r.cid = c ∧ r.date = d) ∧
        ∀ r ∈ table, r.cid = c → d ≤ r.date) := by
  rw [globalFirstVisitDate, foldrMin_eq_some]
  simp only [List.mem_map, List.mem_filter, beq_iff_eq]
  constructor
  · rintro ⟨⟨r, ⟨hr, hc⟩, hd⟩, hub⟩
    exact ⟨⟨r, hr, hc, hd⟩, fun r' hr' hc' =>
      hub r'.date ⟨r', ⟨hr', hc'⟩, rfl⟩⟩
  · rintro ⟨⟨r, hr, hc, hd⟩, hub⟩
    refine ⟨⟨r, ⟨hr, hc⟩, hd⟩, ?_⟩
    rintro x ⟨r', ⟨hr', hc'⟩, rfl⟩
    exact hub r' hr' hc'

theorem globalFirstDoneVisitDate_eq (table : List Visit)
    (hdone : ∀ r ∈ table, r.status = doneStatus) (c : String) :
    globalFirstDoneVisitDate table c = globalFirstVisitDate table c := by
  rw [globalFirstDoneVisitDate, globalFirstVisitDate]
  have hfil : table.filter (fun r => r.cid == c && (r.status == doneStatus))
      = table.filter (fun r => r.cid == c) := by
    apply List.filter_congr
    intro r hr
    simp [hdone r hr]
  rw [hfil]

theorem dedupFirstGo_of_nodup {α : Type} [DecidableEq α] (l : List α) :
    ∀ seen : List α, l.Nodup → (∀ a ∈ l, a ∉ seen) →
      dedupFirstGo l seen = l := by
  induction l with
  | nil => intro seen _ _; rfl
  | cons x xs ih =>
    intro seen hnd hns
    have hx : x ∉ seen := hns x (List.mem_cons_self x xs)
    rw [dedupFirstGo, if_neg hx]
    congr 1
    apply ih (x :: seen) (List.nodup_cons.mp hnd).2
    intro a ha hmem
    rcases List.mem_cons.mp hmem with rfl | h2
    · exact (List.nodup_cons.mp hnd).1 ha
    · exact hns a (List.mem_cons_of_mem x ha) h2

theorem dedupFirst_of_nodup {α : Type} [DecidableEq α] {l : List α}
    (h : l.Nodup) : dedupFirst l = l :=
  dedupFirstGo_of_nodup l [] h (fun a _ => List.not_mem_nil a)

theorem filter_eq_singleton (p : Visit → Bool) (r : Visit) :
    ∀ rows : List Visit, rows.Nodup → r ∈ rows → p r = true →
      (∀ r' ∈ rows, p r' = true → r' = r) → rows.filter p = [r] := by
  intro rows
  induction rows with
  | nil => intro _ hr; cases hr
  | cons x xs ih =>
    intro hnd hr hpr huniq
    rcases List.mem_cons.mp hr with rfl | hr2
    · rw [List.filter_cons_of_pos hpr]
      have hnil : xs.filter p = [] := by
        rw [List.filter_eq_nil_iff]
        intro a ha hpa
        have ha2 : a = r := huniq a (List.mem_cons_of_mem r ha) hpa
        exact (List.nodup_cons.mp hnd).1 (ha2 ▸ ha)
      rw [hnil]
    · have hpx : ¬ p x = true := by
        intro hpx
        have hxr : x = r := huniq x (List.mem_cons_self x xs) hpx
        exact (List.nodup_cons.mp hnd).1 (hxr ▸ hr2)
      rw [List.filter_cons_of_neg (by simpa using hpx)]
      exact ih (List.nodup_cons.mp hnd).2 hr2 hpr
        (fun r' h' hp' => huniq r' (List.mem_cons_of_mem x h') hp')

theorem filterMap_eq_self {α : Type} (f : α → Option α) :
    ∀ l : List α, (∀ a ∈ l, f a = some a) → l.filterMap f = l := by
  intro l
  induction l with
  | nil => intro _; rfl
  | cons x xs ih =>
    intro h
    simp only [List.filterMap_cons, h x (List.mem_cons_self x xs)]
    rw [ih (fun a ha => h a (List.mem_cons_of_mem x ha))]

theorem select_first_min_eq (rows : List Visit)
    (huniq : ∀ r1 ∈ rows, ∀ r2 ∈ rows, r1.cid = r2.cid → r1 = r2)
    (hnd : rows.Nodup) :
    (dedupFirst (rows.map (fun r => r.cid))).filterMap
      (fun c => firstMinByDate (rows.filter (fun r => r.cid == c))) =
      rows := by
  have hmapnd : (rows.map (fun r => r.cid)).Nodup :=
    hnd.map_on (fun x hx y hy hxy => huniq x hx y hy hxy)
  rw [dedupFirst_of_nodup hmapnd, List.filterMap_map]
  apply filterMap_eq_self
  intro r hr
  have hfil : rows.filter (fun r' => r'.cid == r.cid) = [r] := by
    apply filter_eq_singleton _ r rows hnd hr (by simp)
    intro r' hr' hp'
    exact huniq r' hr' r hr (by simpa using hp')
  show firstMinByDate (rows.filter (fun r' => r'.cid == r.cid)) = some r
  rw [hfil]
  rfl

theorem mem_trueNewCustomerVisits {table : List Visit} {s e : Nat}
    {r : Visit} :
    r ∈ trueNewCustomerVisits table s e ↔
      r ∈ table ∧ isTrueNewVisit table s e r := by
  rw [trueNewCustomerVisits, List.mem_filter, decide_eq_true_eq]

theorem trueNewCustomerVisits_uniq (table : List Visit) (s e : Nat)
    (huniq : ∀ r1 ∈ table, ∀ r2 ∈ table, r1.cid = r2.cid →
      r1.date = r2.date → r1 = r2) :
    ∀ r1 ∈ trueNewCustomerVisits table s e,
      ∀ r2 ∈ trueNewCustomerVisits table s e,
        r1.cid = r2.cid → r1 = r2 := by
  intro r1 h1 r2 h2 hcid
  obtain ⟨ht1, hA1, _⟩ := mem_trueNewCustomerVisits.mp h1
  obtain ⟨ht2, hA2, _⟩ := mem_trueNewCustomerVisits.mp h2
  rw [hcid] at hA1
  rw [hA2] at hA1
  rw [Option.some_inj] at hA1
  exact huniq r1 ht1 r2 ht2 hcid hA1.symm

/-- C1.  On a resolved visit table (all rows completed, at most one row
per customer and date, distinct rows), the new-customer extraction is
exactly the set of table rows whose date is their customer's minimum
completed visit date, whose first-visit flag is true or blank, and whose
date lies in [windowStart, windowEnd]; there is exactly one output record
per qualifying customer id and it carries that global-first-visit row's
attributes (it is that row). -/
theorem c1_new_customer_extraction (table : List Visit) (s e : Nat)
    (hdone : ∀ r ∈ table, r.status = doneStatus)
    (huniq : ∀ r1 ∈ table, ∀ r2 ∈ table, r1.cid = r2.cid →
      r1.date = r2.date → r1 = r2)
    (hnd : table.Nodup) :
    get_new_customers table s e =
      table.filter (fun r => decide
        (globalFirstDoneVisitDate table r.cid = some r.date ∧
          flagTrueOrBlank r ∧ s ≤ r.date ∧ r.date ≤ e)) ∧
    ∀ c : String,
      ((∃ rr ∈ get_new_customers table s e, rr.cid = c) ↔
        (∃ r ∈ table, r.cid = c ∧
          globalFirstDoneVisitDate table c = some r.date ∧
          flagTrueOrBlank r ∧ s ≤ r.date ∧ r.date ≤ e)) ∧
      (∀ rr1 ∈ get_new_customers table s e,
        ∀ rr2 ∈ get_new_customers table s e,
          rr1.cid = c → rr2.cid = c → rr1 = rr2) := by
  have hquniq := trueNewCustomerVisits_uniq table s e huniq
  have hqnd : (trueNewCustomerVisits table s e).Nodup := hnd.filter _
  have hsel : get_new_customers table s e =
      trueNewCustomerVisits table s e := by
    rw [get_new_customers]
    exact select_first_min_eq (trueNewCustomerVisits table s e) hquniq hqnd
  have hpred : ∀ r ∈ table,
      (decide (isTrueNewVisit table s e r)) = (decide
        (globalFirstDoneVisitDate table r.cid = some r.date ∧
          flagTrueOrBlank r ∧ s ≤ r.date ∧ r.date ≤ e)) := by
    intro r _
    rw [decide_eq_decide, isTrueNewVisit,
      globalFirstDoneVisitDate_eq table hdone r.cid]
  have hmain : get_new_customers table s e =
      table.filter (fun r => decide
        (globalFirstDoneVisitDate table r.cid = some r.date ∧
          flagTrueOrBlank r ∧ s ≤ r.date ∧ r.date ≤ e)) := by
    rw [hsel, trueNewCustomerVisits]
    exact List.filter_congr hpred
  refine ⟨hmain, fun c => ⟨?_, ?_⟩⟩
  · constructor
    · rintro ⟨rr, hrr, rfl⟩
      rw [hmain, List.mem_filter, decide_eq_true_eq] at hrr
      exact ⟨rr, hrr.1, rfl, hrr.2⟩
    · rintro ⟨r, hr, hc, hmin, hflag, hs, he⟩
      refine ⟨r, ?_, hc⟩
      rw [hmain, List.mem_filter, decide_eq_true_eq]
      exact ⟨hr, by rw [hc]; exact hmin, hflag, hs, he⟩
  · intro rr1 h1 rr2 h2 hc1 hc2
    rw [hsel] at h1 h2
    exact hquniq rr1 h1 rr2 h2 (hc1.trans hc2.symm)

/-- Witness for C1 at a concrete one-row table: the sole completed visit
on day 5 with flag true inside the window [3, 9] is extracted exactly as
the claim's filter describes. -/
theorem c1_new_customer_extraction_witness :
    get_new_customers [⟨"A", 5, "済み", some true, none, none, 0, 0⟩] 3 9 =
      [⟨"A", 5, "済み", some true, none, none, 0, 0⟩].filter (fun r => decide
        (globalFirstDoneVisitDate
            [⟨"A", 5, "済み", some true, none, none, 0, 0⟩] r.cid =
          some r.date ∧
          flagTrueOrBlank r ∧ 3 ≤ r.date ∧ r.date ≤ 9)) :=
  (c1_new_customer_extraction
    [⟨"A", 5, "済み", some true, none, none, 0, 0⟩] 3 9
    (by decide) (by decide) (by decide)).1

end HPB
